import Mathlib

/-!
Verification of the unified-connector-framework front-end.

This file shallowly embeds the two documented "core" pieces of the
repository — the envelope normalizer (`envelopeFetcher` in
`src/app/connections/[id]/page.tsx`) and the wizard state machine
(`src/app/wizard/page.tsx`) — as executable Lean definitions, and proves
or refutes the specification's claims about them.

JSON values are modelled by an inductive `Json` type (numbers restricted
to integers; the claims under study never involve non-integer numerics).
JavaScript dynamic behaviour that the source relies on — truthiness
(`||`, `if (x)`), `String()` coercion performed by `new Error(x)` and by
URL assignment, the `in` operator, optional chaining `a?.b`, and the
nullish coalescing `a ?? b` — is modelled explicitly.

Asynchronous functions that `throw` are modelled as total functions into
a result type with explicit failure constructors: a rejected promise is
a value delivered to the caller (SWR / the awaiting handler), which is
exactly how the source consumes these functions.
-/

namespace UCF

/-- JSON values, as produced by `JSON.parse` (numbers restricted to
integers for this development). -/
inductive Json where
  | null
  | bool (b : Bool)
  | num (n : Int)
  | str (s : String)
  | arr (elems : List Json)
  | obj (fields : List (String × Json))
deriving Repr, Inhabited

/-- First-match lookup of a field in a JSON object's field list
(models JavaScript property access `o.k` / `o["k"]`; `none` models
`undefined`). -/
def lookupField : List (String × Json) → String → Option Json
  | [], _ => none
  | (k, v) :: rest, key => if k = key then some v else lookupField rest key

/-- JavaScript truthiness of a JSON value: `null`, `false`, `0` and `""`
are falsy; every object and array is truthy. -/
def truthy : Json → Bool
  | .null => false
  | .bool b => b
  | .num n => n != 0
  | .str s => s != ""
  | .arr _ => true
  | .obj _ => true

mutual
/-- JavaScript `String()` coercion of a JSON value (as performed by
`new Error(x)` for a defined `x`).  Arrays stringify via
`Array.prototype.toString`, i.e. elements joined with `","` and `null`
elements contributing the empty string; plain objects stringify to
`"[object Object]"`. -/
def jsToString : Json → String
  | .null => "null"
  | .bool true => "true"
  | .bool false => "false"
  | .num n => toString n
  | .str s => s
  | .arr elems => jsArrToString elems
  | .obj _ => "[object Object]"

/-- `Array.prototype.toString`: join with commas, `null` → `""`. -/
def jsArrToString : List Json → String
  | [] => ""
  | [Json.null] => ""
  | [j] => jsToString j
  | Json.null :: rest => "," ++ jsArrToString rest
  | j :: rest => jsToString j ++ "," ++ jsArrToString rest
end

/-- JavaScript `a || b` on a possibly-undefined left operand: returns
`a` when it is defined and truthy, otherwise `b`. -/
def jsOr (a b : Option Json) : Option Json :=
  match a with
  | some v => if truthy v then some v else b
  | none => b

/-- Optional chaining `x?.message`: property access when `x` is a
defined object, `undefined` otherwise (property access on primitives
and on `null`/`undefined` operands yields `undefined` under `?.`). -/
def chainMessage : Option Json → Option Json
  | some (.obj fields) => lookupField fields "message"
  | _ => none

/-- `res.ok` of the Fetch API: status in the range 200–299. -/
def resOk (status : Nat) : Bool :=
  200 ≤ status && status ≤ 299

/-- The response body as `envelopeFetcher` obtains it:
`contentType.includes("application/json") ? await res.json() : await res.text()`.
A JSON-declared body carries its parse result (`none` = `res.json()`
rejected with a parse error); any other body is the raw text. -/
inductive Body where
  | json (parsed : Option Json)
  | text (s : String)
deriving Repr

/-- Outcome of `envelopeFetcher` as observed by its caller: the async
function either fulfills with the data value, rejects with an `Error`
whose message is recorded (`thrown`), or rejects with the `SyntaxError`
propagated from `res.json()` (`parseThrown`). -/
inductive FetchResult where
  | ok (data : Json)
  | thrown (message : String)
  | parseThrown
deriving Repr

/-- Whether a `FetchResult` is a failure delivered to the caller
(a rejected promise). -/
def FetchResult.isFailure : FetchResult → Bool
  | .ok _ => false
  | _ => true

/-- The non-2xx branch of `envelopeFetcher`: computes the message of the
thrown `Error`.  Mirrors

```ts
let message: string | undefined;
if (typeof b === "string") message = b;
else if (b && typeof b === "object") {
  const be = b.error;
  message = b.message || be?.message;
}
throw new Error(message || `Request failed: ${res.status}`);
```

Arrays have `typeof === "object"` but no `message`/`error` properties,
so they leave `message` undefined exactly like the other non-object
values. -/
def errMessage (status : Nat) (bodyVal : Json) : String :=
  let message : Option Json :=
    match bodyVal with
    | .str s => some (.str s)
    | .obj fields =>
        jsOr (lookupField fields "message")
             (chainMessage (lookupField fields "error"))
    | _ => none
  match message with
  | some v => if truthy v then jsToString v else "Request failed: " ++ toString status
  | none => "Request failed: " ++ toString status

/-- The duck-typing envelope check of `envelopeFetcher`:
`typeof body === "object" && body !== null && ("ok" in body || "data" in body || "error" in body)`.
Arrays pass the `typeof` test but have none of the three own properties,
so only plain objects can qualify. -/
def isEnvelope : Json → Bool
  | .obj fields =>
      (lookupField fields "ok").isSome ||
      (lookupField fields "data").isSome ||
      (lookupField fields "error").isSome
  | _ => false

/-- Normalization of an already-obtained body value by `envelopeFetcher`
(the part after `await res.json()` / `await res.text()` succeeded). -/
def normalizeBody (status : Nat) (bodyVal : Json) : FetchResult :=
  if resOk status = false then
    .thrown (errMessage status bodyVal)
  else if isEnvelope bodyVal then
    match bodyVal with
    | .obj fields =>
        match lookupField fields "ok" with
        | some (.bool false) =>
          -- throw new Error(env.error?.message || "Request failed")
          (match jsOr (chainMessage (lookupField fields "error")) (some (.str "Request failed")) with
           | some v => .thrown (jsToString v)
           | none => .thrown "Request failed")
        | _ =>
          -- return (env.data as T) ?? (null as T)
          .ok ((lookupField fields "data").getD .null)
    | _ => .ok bodyVal
  else
    .ok bodyVal

/-- `envelopeFetcher` from `src/app/connections/[id]/page.tsx`: the SWR
fetcher with unified-envelope parsing.  The body is read before the
status check, so a JSON parse failure rejects regardless of status. -/
def envelopeFetcher (status : Nat) (body : Body) : FetchResult :=
  match body with
  | .json none => .parseThrown
  | .json (some j) => normalizeBody status j
  | .text s => normalizeBody status (.str s)

/-! ## Wizard state machine (`src/app/wizard/page.tsx`) -/

/-- Auth methods offered by the wizard (`"oauth" | "api_key"`). -/
inductive AuthMethod where
  | oauth
  | apiKey
deriving Repr, DecidableEq

/-- Modelled from the spec: the `Connector` type of `lib/api/connectors`
(that module is not among the provided sources; spec §3 gives
`{ id, name, description?, authMethods }`, and the wizard page uses the
`id` and `name` fields). -/
structure Connector where
  id : String
  name : String
  description : Option String := none
  authMethods : List AuthMethod := []
deriving Repr

/-- The wizard's `Step` union type. -/
inductive Step where
  | selectConnector
  | selectAuth
  | auth
  | validate
  | done
deriving Repr, DecidableEq

/-- The `error` part of a failure envelope:
`{ code: string, message: string, details?: string }` (spec §3, and the
shape of every envelope the wizard constructs). -/
structure ErrorInfo where
  code : String
  message : String
  details : Option String := none
deriving Repr, DecidableEq

/-- Modelled from the spec: `UnifiedEnvelope` of `lib/api/connectors`
(module not among the provided sources; spec §3 defines
`{ ok: true, data } | { ok: false, error }`, which is exactly how the
wizard page consumes the api-client results). -/
inductive Envelope (α : Type) where
  | ok (data : α)
  | fail (error : ErrorInfo)
deriving Repr

/-- Outcome of an awaited api-client call as the wizard handler observes
it: the promise fulfills with an envelope, or rejects (the handler's
`catch (e)` branch, which records `String(e)`). -/
inductive CallOutcome where
  | resp (r : Envelope Json)
  | thrown (e : String)
deriving Repr

/-- The wizard page's React state, one field per `useState` hook
(`authMethod`'s empty-string initial value is modelled as `none`). -/
structure WizardState where
  step : Step
  connectors : List Connector
  selectedConnectorId : String
  authMethod : Option AuthMethod
  apiKey : String
  apiBaseUrl : String
  loading : Bool
  errorEnvelope : Option ErrorInfo
  infoMessage : String
deriving Repr

/-- `selectedConnector` (the `useMemo`):
`connectors.find((c) => c.id === selectedConnectorId) ?? null`. -/
def selectedConnector (s : WizardState) : Option Connector :=
  s.connectors.find? (fun c => c.id == s.selectedConnectorId)

/-- Backend calls a wizard handler can issue. -/
inductive ApiCall where
  | initiateOAuth (connectorId : String)
  | createApiKeyConnection (connectorId apiKey apiBaseUrl : String)
  | validateConnection (connectorId : String)
deriving Repr, DecidableEq

/-- Observable side effects of a wizard handler besides state updates. -/
inductive Effect where
  | request (call : ApiCall)
  | redirect (url : String)
  | scheduleNav (path : String) (delayMs : Nat)
deriving Repr, DecidableEq

/-- Whether an effect is a scheduled router navigation. -/
def Effect.isScheduleNav : Effect → Bool
  | .scheduleNav _ _ => true
  | _ => false

/-- Whether an effect is a browser redirect (`window.location.href = url`). -/
def Effect.isRedirect : Effect → Bool
  | .redirect _ => true
  | _ => false

/-- Whether an effect is an issued network request. -/
def Effect.isRequest : Effect → Bool
  | .request _ => true
  | _ => false

/-- The `authUrl` extraction in `handleInitiateOAuth`:
`(resp.data && typeof resp.data === "object" && "authUrl" in resp.data) ? resp.data.authUrl : undefined`.
Only plain objects can pass the `in` test for this key. -/
def extractAuthUrl : Json → Option Json
  | .obj fields => lookupField fields "authUrl"
  | _ => none

/-- `handleInitiateOAuth`: guard on a selected connector, clear
error/info, call `initiateOAuth`, then redirect to the returned
`authUrl` or attach a `MISSING_AUTH_URL` envelope; failure envelopes
and exceptions are attached to state; `finally` clears `loading`. -/
def handleInitiateOAuth (s : WizardState) (outcome : CallOutcome) :
    WizardState × List Effect :=
  match selectedConnector s with
  | none => (s, [])
  | some c =>
    let s1 := { s with loading := true, errorEnvelope := none, infoMessage := "" }
    let req : Effect := .request (.initiateOAuth c.id)
    match outcome with
    | .resp (.ok data) =>
        match extractAuthUrl data with
        | some url =>
            if truthy url then
              ({ s1 with infoMessage := "Redirecting to provider for authorization...",
                         loading := false },
               [req, .redirect (jsToString url)])
            else
              ({ s1 with errorEnvelope := some ⟨"MISSING_AUTH_URL",
                           "Authorization URL not provided by backend.", none⟩,
                         loading := false }, [req])
        | none =>
            ({ s1 with errorEnvelope := some ⟨"MISSING_AUTH_URL",
                         "Authorization URL not provided by backend.", none⟩,
                       loading := false }, [req])
    | .resp (.fail e) =>
        ({ s1 with errorEnvelope := some e, loading := false }, [req])
    | .thrown e =>
        ({ s1 with errorEnvelope := some ⟨"CLIENT_INITIATE_OAUTH_ERROR",
                     "Failed to initiate OAuth flow", some e⟩,
                   loading := false }, [req])

/-- `handleCreateApiKeyConnection`: guard on a selected connector; an
empty `apiKey` (`if (!apiKey)`) attaches a `MISSING_API_KEY` envelope
and returns before any network call; otherwise call
`createApiKeyConnection` and advance to `validate` on success. -/
def handleCreateApiKeyConnection (s : WizardState) (outcome : CallOutcome) :
    WizardState × List Effect :=
  match selectedConnector s with
  | none => (s, [])
  | some c =>
    if s.apiKey = "" then
      ({ s with errorEnvelope := some ⟨"MISSING_API_KEY",
                  "Please enter an API key.", none⟩ }, [])
    else
      let s1 := { s with loading := true, errorEnvelope := none,
                         infoMessage := "Creating connection..." }
      let req : Effect := .request (.createApiKeyConnection c.id s.apiKey s.apiBaseUrl)
      match outcome with
      | .resp (.ok _) =>
          ({ s1 with infoMessage := "Connection created. Validating...",
                     step := .validate, loading := false }, [req])
      | .resp (.fail e) =>
          ({ s1 with errorEnvelope := some e, loading := false }, [req])
      | .thrown e =>
          ({ s1 with errorEnvelope := some ⟨"CLIENT_CREATE_API_KEY_ERROR",
                       "Failed to create API key connection", some e⟩,
                     loading := false }, [req])

/-- `handleValidate`: guard on a selected connector, call
`validateConnection`; on success set step `done` and schedule a single
`router.push("/")` after 800 ms; failures attach the envelope. -/
def handleValidate (s : WizardState) (outcome : CallOutcome) :
    WizardState × List Effect :=
  match selectedConnector s with
  | none => (s, [])
  | some c =>
    let s1 := { s with loading := true, errorEnvelope := none,
                       infoMessage := "Validating connection..." }
    let req : Effect := .request (.validateConnection c.id)
    match outcome with
    | .resp (.ok _) =>
        ({ s1 with step := .done,
                   infoMessage := "Validation successful. Redirecting to dashboard...",
                   loading := false },
         [req, .scheduleNav "/" 800])
    | .resp (.fail e) =>
        ({ s1 with errorEnvelope := some e, loading := false }, [req])
    | .thrown e =>
        ({ s1 with errorEnvelope := some ⟨"CLIENT_VALIDATE_ERROR",
                     "Failed to validate connection", some e⟩,
                   loading := false }, [req])

/-- The connector-selection action (the `onSelect` handler of
`ConnectorGrid` in the `select-connector` card):
`setSelectedConnectorId(id); setErrorEnvelope(null);`. -/
def selectConnectorAction (s : WizardState) (id : String) : WizardState :=
  { s with selectedConnectorId := id, errorEnvelope := none }

/-- The auth-method-selection action (the `onChange` handler of
`AuthMethodSelect`): `setAuthMethod(v); setErrorEnvelope(null);`. -/
def chooseAuthMethodAction (s : WizardState) (m : AuthMethod) : WizardState :=
  { s with authMethod := some m, errorEnvelope := none }

/-- `goBack`: clear error/info, move one step left along the forward
chain (`validate` returns to `auth`); no effect on other steps. -/
def goBack (s : WizardState) : WizardState :=
  let s1 := { s with errorEnvelope := none, infoMessage := "" }
  match s.step with
  | .selectAuth => { s1 with step := .selectConnector }
  | .auth => { s1 with step := .selectAuth }
  | .validate => { s1 with step := .auth }
  | _ => s1

/-- `handleNextFromConnector`, guarded by
`canContinueFromConnector = !!selectedConnectorId`. -/
def handleNextFromConnector (s : WizardState) : WizardState :=
  if s.selectedConnectorId = "" then s else { s with step := .selectAuth }

/-- `handleNextFromAuth`, guarded by `canContinueFromAuth = !!authMethod`. -/
def handleNextFromAuth (s : WizardState) : WizardState :=
  match s.authMethod with
  | none => s
  | some _ => { s with step := .auth }

/-! ## Detail explorer (`ItemDetail` in `src/app/connections/[id]/page.tsx`) -/

/-- Structured descriptors of the detail-explorer endpoints (the
`endpoints` URL builders, abstracted to their path/query structure). -/
inductive DetailRequest where
  | connection (id : String)
  | containers (id : String)
  | items (id : String) (containerId : Option String) (q : Option String)
  | item (id : String) (itemId : String)
  | comments (id : String) (itemId : String)
deriving Repr, DecidableEq

/-- The value triple a mounted SWR hook exposes. -/
structure SWRResult where
  data : Option Json
  error : Option String
  isLoading : Bool
deriving Repr

/-- `useSWR` with a conditional key: a `null` key issues no request and
yields no data, no error and `isLoading = false`; a present key issues
that request and yields whatever the backend oracle has for it. -/
def useSWR (key : Option DetailRequest) (oracle : DetailRequest → SWRResult) :
    SWRResult × List DetailRequest :=
  match key with
  | none => (⟨none, none, false⟩, [])
  | some k => (oracle k, [k])

/-- `searchParams.get`: first match in the query-string pairs. -/
def getParam : List (String × String) → String → Option String
  | [], _ => none
  | (k, v) :: rest, key => if k = key then some v else getParam rest key

/-- What the `ItemDetail` component renders, one flag per conditional
block of its JSX. -/
structure ItemDetailView where
  showsPlaceholder : Bool
  showsError : Bool
  showsLoading : Bool
  showsItem : Bool
deriving Repr, DecidableEq

/-- The `ItemDetail` component: reads `itemId` from the query string,
mounts the item-detail and comments SWR hooks with conditional keys,
and renders `{!itemId && placeholder}`, `{itemId && itemError && ...}`,
`{itemId && itemLoading && ...}`, `{itemId && item && ...}`. -/
def renderItemDetail (connectionId : String) (params : List (String × String))
    (oracle : DetailRequest → SWRResult) : ItemDetailView × List DetailRequest :=
  let itemId := getParam params "itemId"
  let (itemRes, itemReqs) :=
    useSWR (itemId.map (fun iid => DetailRequest.item connectionId iid)) oracle
  let (_commentsRes, commentReqs) :=
    useSWR (itemId.map (fun iid => DetailRequest.comments connectionId iid)) oracle
  ({ showsPlaceholder := itemId.isNone,
     showsError := itemId.isSome && itemRes.error.isSome,
     showsLoading := itemId.isSome && itemRes.isLoading,
     showsItem := itemId.isSome &&
       (match itemRes.data with | some v => truthy v | none => false) },
   itemReqs ++ commentReqs)

/-- The page's active tab:
`(searchParams.get("tab") as TabKey) || "containers"` — the cast is
unchecked, so the active tab is the raw string with only the falsy
(`null`/empty) cases defaulted. -/
def activeTabParam (params : List (String × String)) : String :=
  match getParam params "tab" with
  | some s => if s = "" then "containers" else s
  | none => "containers"

/-- The item-tab section of `ConnectionDetailPage`:
`{activeTab === "item" && id && <ItemDetail connectionId={id} />}` —
the `ItemDetail` component (and hence its SWR hooks) is mounted only
when the active tab is `"item"`. -/
def connectionDetailItemSection (connectionId : String)
    (params : List (String × String)) (oracle : DetailRequest → SWRResult) :
    Option ItemDetailView × List DetailRequest :=
  if activeTabParam params = "item" then
    let (v, reqs) := renderItemDetail connectionId params oracle
    (some v, reqs)
  else
    (none, [])

/-! ## Spec-side definitions for the normalizer's failure message (claim C1) -/

/-- A non-empty string candidate, or nothing. -/
def nonEmptyStr : Option Json → Option String
  | some (.str s) => if s = "" then none else some s
  | _ => none

/-- The message-selection rule exactly as claim C1 states it: the body's
`error.message`, or else the top-level `message`, or else the raw text
body, each used when it yields a non-empty string, falling back to
`"Request failed: <status>"`. -/
def claimC1Message (status : Nat) (bodyVal : Json) : String :=
  let errMsg : Option String :=
    match bodyVal with
    | .obj fields => nonEmptyStr (chainMessage (lookupField fields "error"))
    | _ => none
  let topMsg : Option String :=
    match bodyVal with
    | .obj fields => nonEmptyStr (lookupField fields "message")
    | _ => none
  let rawText : Option String :=
    match bodyVal with
    | .str s => if s = "" then none else some s
    | _ => none
  (((errMsg.orElse fun _ => topMsg).orElse fun _ => rawText)).getD
    ("Request failed: " ++ toString status)

/-- The message-selection rule of the amended claim C1: the top-level
`message` first, then `error.message`, then the raw text body, each
used when it yields a non-empty string, falling back to
`"Request failed: <status>"`. -/
def amendedC1Message (status : Nat) (bodyVal : Json) : String :=
  let errMsg : Option String :=
    match bodyVal with
    | .obj fields => nonEmptyStr (chainMessage (lookupField fields "error"))
    | _ => none
  let topMsg : Option String :=
    match bodyVal with
    | .obj fields => nonEmptyStr (lookupField fields "message")
    | _ => none
  let rawText : Option String :=
    match bodyVal with
    | .str s => if s = "" then none else some s
    | _ => none
  (((topMsg.orElse fun _ => errMsg).orElse fun _ => rawText)).getD
    ("Request failed: " ++ toString status)

/-- Whether an optional JSON value is, when present, a string. -/
def isStrOpt : Option Json → Bool
  | some (.str _) => true
  | some _ => false
  | none => true

/-- The declared response type of the non-2xx branch
(`{ message?: string } | { error?: { message?: string } } | string | null`):
the `message` and `error.message` fields, when present, are strings. -/
def msgFieldsAreStrings : Json → Bool
  | .obj fields =>
      isStrOpt (lookupField fields "message") &&
      isStrOpt (chainMessage (lookupField fields "error"))
  | _ => true

/-! ## Sample data for concrete instantiations -/

/-- A sample connector. -/
def sampleConnector : Connector :=
  { id := "jira", name := "Jira", description := none,
    authMethods := [.oauth, .apiKey] }

/-- A sample wizard session parked at the `auth` step with an API key
entered. -/
def sampleAuthState : WizardState :=
  { step := .auth, connectors := [sampleConnector],
    selectedConnectorId := "jira", authMethod := some .apiKey,
    apiKey := "secret-key", apiBaseUrl := "", loading := false,
    errorEnvelope := none, infoMessage := "" }

/-- The same session with the API-key field left empty. -/
def sampleEmptyKeyState : WizardState :=
  { sampleAuthState with apiKey := "" }

/-- The same session at the `validate` step. -/
def sampleValidateState : WizardState :=
  { sampleAuthState with step := .validate }

/-! # Theorems -/

/-- Auxiliary: the fallback message is never the empty string. -/
theorem requestFailed_ne_empty (status : Nat) :
    "Request failed: " ++ toString status ≠ "" := by
  intro h
  have hlen := congrArg String.length h
  rw [String.length_append] at hlen
  have h16 : "Request failed: ".length = 16 := rfl
  rw [h16] at hlen
  simp at hlen

/-- Auxiliary: on string-typed bodies, the normalizer's non-2xx message
agrees with the amended selection rule and is non-empty. -/
theorem errMessage_eq_amended (status : Nat) (j : Json)
    (h : msgFieldsAreStrings j = true) :
    errMessage status j = amendedC1Message status j ∧
    amendedC1Message status j ≠ "" := by
  cases j with
  | null => exact ⟨rfl, requestFailed_ne_empty status⟩
  | bool b => exact ⟨rfl, requestFailed_ne_empty status⟩
  | num n => exact ⟨rfl, requestFailed_ne_empty status⟩
  | arr elems => exact ⟨rfl, requestFailed_ne_empty status⟩
  | str s =>
      by_cases hs : s = ""
      · subst hs
        exact ⟨rfl, requestFailed_ne_empty status⟩
      · constructor
        · simp [errMessage, amendedC1Message, truthy, jsToString, hs, Option.orElse]
        · simp [amendedC1Message, Option.orElse, hs]
  | obj fields =>
      simp only [msgFieldsAreStrings, Bool.and_eq_true] at h
      obtain ⟨hm, he⟩ := h
      rcases hmv : lookupField fields "message" with _ | mv
      · rcases hev : chainMessage (lookupField fields "error") with _ | ev
        · exact ⟨by simp [errMessage, amendedC1Message, nonEmptyStr, jsOr, hmv, hev,
                          Option.orElse],
                 by simp [amendedC1Message, nonEmptyStr, hmv, hev, Option.orElse];
                    exact requestFailed_ne_empty status⟩
        · rw [hev] at he
          cases ev with
          | str t =>
              by_cases ht : t = ""
              · subst ht
                exact ⟨by simp [errMessage, amendedC1Message, nonEmptyStr, jsOr, hmv, hev,
                                truthy, Option.orElse],
                       by simp [amendedC1Message, nonEmptyStr, hmv, hev, Option.orElse];
                          exact requestFailed_ne_empty status⟩
              · constructor
                · simp [errMessage, amendedC1Message, nonEmptyStr, jsOr, hmv, hev,
                        truthy, jsToString, ht, Option.orElse]
                · simp [amendedC1Message, nonEmptyStr, hmv, hev, ht, Option.orElse]
          | null => simp [isStrOpt] at he
          | bool b => simp [isStrOpt] at he
          | num n => simp [isStrOpt] at he
          | arr a => simp [isStrOpt] at he
          | obj o => simp [isStrOpt] at he
      · rw [hmv] at hm
        cases mv with
        | str a =>
            by_cases ha : a = ""
            · subst ha
              rcases hev : chainMessage (lookupField fields "error") with _ | ev
              · exact ⟨by simp [errMessage, amendedC1Message, nonEmptyStr, jsOr, hmv, hev,
                              truthy, Option.orElse],
                       by simp [amendedC1Message, nonEmptyStr, hmv, hev, Option.orElse];
                          exact requestFailed_ne_empty status⟩
              · rw [hev] at he
                cases ev with
                | str t =>
                    by_cases ht : t = ""
                    · subst ht
                      exact ⟨by simp [errMessage, amendedC1Message, nonEmptyStr, jsOr,
                                      hmv, hev, truthy, Option.orElse],
                             by simp [amendedC1Message, nonEmptyStr, hmv, hev,
                                      Option.orElse];
                                exact requestFailed_ne_empty status⟩
                    · constructor
                      · simp [errMessage, amendedC1Message, nonEmptyStr, jsOr, hmv, hev,
                              truthy, jsToString, ht, Option.orElse]
                      · simp [amendedC1Message, nonEmptyStr, hmv, hev, ht, Option.orElse]
                | null => simp [isStrOpt] at he
                | bool b => simp [isStrOpt] at he
                | num n => simp [isStrOpt] at he
                | arr a2 => simp [isStrOpt] at he
                | obj o => simp [isStrOpt] at he
            · constructor
              · simp [errMessage, amendedC1Message, nonEmptyStr, jsOr, hmv,
                      truthy, jsToString, ha, Option.orElse]
              · simp [amendedC1Message, nonEmptyStr, hmv, ha, Option.orElse]
        | null => simp [isStrOpt] at hm
        | bool b => simp [isStrOpt] at hm
        | num n => simp [isStrOpt] at hm
        | arr a => simp [isStrOpt] at hm
        | obj o => simp [isStrOpt] at hm

/-- C1 (counterexample).  Two concrete non-2xx responses refute the
claim as stated.  First, when the body carries both a top-level
`message` and an `error.message`, the code uses the top-level `message`
(`b.message || be?.message`), while the claimed order picks
`error.message` first.  Second, a body whose `message` field is the
truthy value `[]` makes the code throw `new Error([])`, whose message
is the empty string, refuting "the failure message is never empty". -/
theorem envelopeFetcher_c1_counterexample :
    (envelopeFetcher 404 (.json (some (Json.obj
        [("message", Json.str "top level"),
         ("error", Json.obj [("message", Json.str "from error")])])))
      = .thrown "top level"
     ∧ claimC1Message 404 (Json.obj
        [("message", Json.str "top level"),
         ("error", Json.obj [("message", Json.str "from error")])])
      = "from error"
     ∧ ("top level" : String) ≠ "from error")
    ∧ envelopeFetcher 500 (.json (some (Json.obj [("message", Json.arr [])])))
      = .thrown "" := by
  refine ⟨⟨rfl, rfl, by decide⟩, rfl⟩

/-- C1 (amended): for every non-2xx response whose `message` and
`error.message` fields, when present, are strings (the branch's declared
response type), the normalizer rejects with an `Error` whose message is
the body's top-level `message`, or else `error.message`, or else the raw
text body — each used when it is a non-empty string — falling back to
`"Request failed: <status>"`; consequently the failure message is never
empty. -/
theorem envelopeFetcher_non2xx_message (status : Nat)
    (hne : resOk status = false) :
    (∀ j : Json, msgFieldsAreStrings j = true →
       envelopeFetcher status (.json (some j)) =
         .thrown (amendedC1Message status j) ∧
       amendedC1Message status j ≠ "") ∧
    (∀ s : String,
       envelopeFetcher status (.text s) =
         .thrown (amendedC1Message status (.str s)) ∧
       amendedC1Message status (.str s) ≠ "") := by
  constructor
  · intro j hj
    obtain ⟨heq, hne'⟩ := errMessage_eq_amended status j hj
    refine ⟨?_, hne'⟩
    simp [envelopeFetcher, normalizeBody, hne, heq]
  · intro s
    obtain ⟨heq, hne'⟩ := errMessage_eq_amended status (.str s) (by simp [msgFieldsAreStrings])
    refine ⟨?_, hne'⟩
    simp [envelopeFetcher, normalizeBody, hne, heq]

/-- C1 (witness for the amended theorem): a concrete 404 with a body
carrying only `error.message` picks that message. -/
theorem envelopeFetcher_non2xx_message_witness :
    resOk 404 = false ∧
    msgFieldsAreStrings (Json.obj
      [("error", Json.obj [("message", Json.str "not found")])]) = true ∧
    envelopeFetcher 404 (.json (some (Json.obj
      [("error", Json.obj [("message", Json.str "not found")])]))) =
      .thrown (amendedC1Message 404 (Json.obj
        [("error", Json.obj [("message", Json.str "not found")])])) := by
  refine ⟨by decide, by decide, ?_⟩
  exact ((envelopeFetcher_non2xx_message 404 (by decide)).1
    (Json.obj [("error", Json.obj [("message", Json.str "not found")])])
    (by decide)).1

/-- C2: for every 2xx response whose JSON body is an object with none of
the keys `ok`/`data`/`error`, the normalizer fulfills with the whole
body unchanged (bare-payload compatibility); and for every 2xx object
body with at least one of those keys and `ok` not (strictly) equal to
`false`, it fulfills with the body's `data` field, or `null` when `data`
is absent. -/
theorem envelopeFetcher_2xx_envelope (status : Nat) (fields : List (String × Json))
    (h2 : resOk status = true) :
    (lookupField fields "ok" = none → lookupField fields "data" = none →
     lookupField fields "error" = none →
       envelopeFetcher status (.json (some (.obj fields))) = .ok (.obj fields)) ∧
    (((lookupField fields "ok").isSome ∨ (lookupField fields "data").isSome ∨
      (lookupField fields "error").isSome) →
     lookupField fields "ok" ≠ some (Json.bool false) →
       envelopeFetcher status (.json (some (.obj fields))) =
         .ok ((lookupField fields "data").getD Json.null)) := by
  constructor
  · intro ho hd he
    simp [envelopeFetcher, normalizeBody, h2, isEnvelope, ho, hd, he]
  · intro hk hok
    have henv : isEnvelope (.obj fields) = true := by
      simp only [isEnvelope, Bool.or_eq_true]
      tauto
    rcases hv : lookupField fields "ok" with _ | v
    · simp [envelopeFetcher, normalizeBody, h2, henv, hv]
    · cases v with
      | bool b =>
          cases b with
          | false => exact absurd hv hok
          | true => simp [envelopeFetcher, normalizeBody, h2, henv, hv]
      | null => simp [envelopeFetcher, normalizeBody, h2, henv, hv]
      | num n => simp [envelopeFetcher, normalizeBody, h2, henv, hv]
      | str s => simp [envelopeFetcher, normalizeBody, h2, henv, hv]
      | arr a => simp [envelopeFetcher, normalizeBody, h2, henv, hv]
      | obj o => simp [envelopeFetcher, normalizeBody, h2, henv, hv]

/-- C2 (witness): a bare payload is passed through whole; an enveloped
body with `ok: true` yields its `data`. -/
theorem envelopeFetcher_2xx_envelope_witness :
    resOk 200 = true ∧
    envelopeFetcher 200 (.json (some (Json.obj [("title", Json.str "t")]))) =
      .ok (Json.obj [("title", Json.str "t")]) ∧
    envelopeFetcher 200 (.json (some (Json.obj
      [("ok", Json.bool true), ("data", Json.str "payload")]))) =
      .ok (Json.str "payload") := by
  refine ⟨by decide, ?_, ?_⟩
  · exact (envelopeFetcher_2xx_envelope 200 [("title", Json.str "t")] (by decide)).1
      rfl rfl rfl
  · exact (envelopeFetcher_2xx_envelope 200
      [("ok", Json.bool true), ("data", Json.str "payload")] (by decide)).2
      (Or.inl (by simp [lookupField]))
      (by simp [lookupField])

/-- C3 (counterexample): a 2xx `ok:false` body is surfaced as a thrown
`Error` carrying only the `error.message`; the `error.code` is dropped.
Two bodies identical except for their `error.code` produce the very same
result, so no consumer can recover the code — the claim's
"preserving both the error code and the error message" fails. -/
theorem envelopeFetcher_okFalse_counterexample :
    envelopeFetcher 200 (.json (some (Json.obj
      [("ok", Json.bool false),
       ("error", Json.obj [("code", Json.str "E_ONE"),
                           ("message", Json.str "boom")])]))) =
      .thrown "boom" ∧
    envelopeFetcher 200 (.json (some (Json.obj
      [("ok", Json.bool false),
       ("error", Json.obj [("code", Json.str "E_TWO"),
                           ("message", Json.str "boom")])]))) =
    envelopeFetcher 200 (.json (some (Json.obj
      [("ok", Json.bool false),
       ("error", Json.obj [("code", Json.str "E_ONE"),
                           ("message", Json.str "boom")])]))) :=
  ⟨rfl, rfl⟩

/-- C3 (amended): for every 2xx response whose JSON body has `ok`
strictly equal to `false` (and whose `error.message`, when present, is a
string), the normalizer surfaces the failure to its caller by rejecting
with an `Error` whose message is the body's `error.message` when that is
a non-empty string, and `"Request failed"` otherwise; the error code is
not included in the surfaced value. -/
theorem envelopeFetcher_okFalse (status : Nat) (fields : List (String × Json))
    (h2 : resOk status = true)
    (hok : lookupField fields "ok" = some (Json.bool false))
    (hstr : isStrOpt (chainMessage (lookupField fields "error")) = true) :
    envelopeFetcher status (.json (some (.obj fields))) =
      .thrown (match chainMessage (lookupField fields "error") with
               | some (.str s) => if s = "" then "Request failed" else s
               | _ => "Request failed") := by
  have henv : isEnvelope (.obj fields) = true := by
    simp [isEnvelope, hok]
  rcases hev : chainMessage (lookupField fields "error") with _ | ev
  · simp [envelopeFetcher, normalizeBody, h2, henv, hok, hev, jsOr, jsToString]
  · rw [hev] at hstr
    cases ev with
    | str t =>
        by_cases ht : t = ""
        · subst ht
          simp [envelopeFetcher, normalizeBody, h2, henv, hok, hev, jsOr, truthy,
                jsToString]
        · simp [envelopeFetcher, normalizeBody, h2, henv, hok, hev, jsOr, truthy,
                jsToString, ht]
    | null => simp [isStrOpt] at hstr
    | bool b => simp [isStrOpt] at hstr
    | num n => simp [isStrOpt] at hstr
    | arr a => simp [isStrOpt] at hstr
    | obj o => simp [isStrOpt] at hstr

/-- C3 (witness for the amended theorem): a concrete `ok:false` body
whose `error.message` is `"boom"` is surfaced as `.thrown "boom"`. -/
theorem envelopeFetcher_okFalse_witness :
    resOk 200 = true ∧
    lookupField [("ok", Json.bool false),
                 ("error", Json.obj [("code", Json.str "E_ONE"),
                                     ("message", Json.str "boom")])] "ok" =
      some (Json.bool false) ∧
    envelopeFetcher 200 (.json (some (Json.obj
      [("ok", Json.bool false),
       ("error", Json.obj [("code", Json.str "E_ONE"),
                           ("message", Json.str "boom")])]))) =
      .thrown "boom" := by
  refine ⟨by decide, rfl, ?_⟩
  exact envelopeFetcher_okFalse 200
    [("ok", Json.bool false),
     ("error", Json.obj [("code", Json.str "E_ONE"),
                         ("message", Json.str "boom")])]
    (by decide) rfl (by decide)

/-- C4: a response declared `application/json` whose body fails to
parse makes `envelopeFetcher` reject with the propagated parse error —
a failure value delivered to its caller (the awaiting SWR hook), for
any status; the embedding is a total function, so no exception escapes
uncaught. -/
theorem envelopeFetcher_malformed_json (status : Nat) :
    envelopeFetcher status (.json none) = .parseThrown ∧
    (envelopeFetcher status (.json none)).isFailure = true :=
  ⟨rfl, rfl⟩

/-- C5: in every wizard session with a selected connector, each of the
three backend-calling step handlers (initiate OAuth, create API-key
connection with a non-empty key, validate) reacts to a failure envelope
by attaching it to the session, and to a thrown exception by attaching
the synthesized client-error envelope — and in every such case the step
is left unchanged; a failure never advances the step. -/
theorem wizard_failure_attaches_envelope_and_keeps_step
    (s : WizardState) (c : Connector) (e : ErrorInfo) (m : String)
    (hc : selectedConnector s = some c) :
    ((handleInitiateOAuth s (.resp (.fail e))).1.step = s.step ∧
     (handleInitiateOAuth s (.resp (.fail e))).1.errorEnvelope = some e) ∧
    ((handleInitiateOAuth s (.thrown m)).1.step = s.step ∧
     (handleInitiateOAuth s (.thrown m)).1.errorEnvelope =
       some ⟨"CLIENT_INITIATE_OAUTH_ERROR", "Failed to initiate OAuth flow",
             some m⟩) ∧
    (s.apiKey ≠ "" →
      ((handleCreateApiKeyConnection s (.resp (.fail e))).1.step = s.step ∧
       (handleCreateApiKeyConnection s (.resp (.fail e))).1.errorEnvelope =
         some e) ∧
      ((handleCreateApiKeyConnection s (.thrown m)).1.step = s.step ∧
       (handleCreateApiKeyConnection s (.thrown m)).1.errorEnvelope =
         some ⟨"CLIENT_CREATE_API_KEY_ERROR",
               "Failed to create API key connection", some m⟩)) ∧
    ((handleValidate s (.resp (.fail e))).1.step = s.step ∧
     (handleValidate s (.resp (.fail e))).1.errorEnvelope = some e) ∧
    ((handleValidate s (.thrown m)).1.step = s.step ∧
     (handleValidate s (.thrown m)).1.errorEnvelope =
       some ⟨"CLIENT_VALIDATE_ERROR", "Failed to validate connection",
             some m⟩) := by
  refine ⟨⟨?_, ?_⟩, ⟨?_, ?_⟩, ?_, ⟨?_, ?_⟩, ⟨?_, ?_⟩⟩
  · simp [handleInitiateOAuth, hc]
  · simp [handleInitiateOAuth, hc]
  · simp [handleInitiateOAuth, hc]
  · simp [handleInitiateOAuth, hc]
  · intro hk
    refine ⟨⟨?_, ?_⟩, ⟨?_, ?_⟩⟩ <;> simp [handleCreateApiKeyConnection, hc, hk]
  · simp [handleValidate, hc]
  · simp [handleValidate, hc]
  · simp [handleValidate, hc]
  · simp [handleValidate, hc]

/-- C5 (witness): a concrete failure envelope returned to the OAuth
step handler is attached to the session and the step stays `auth`. -/
theorem wizard_failure_attaches_envelope_witness :
    selectedConnector sampleAuthState = some sampleConnector ∧
    (handleInitiateOAuth sampleAuthState
        (.resp (.fail ⟨"OAUTH_DENIED", "denied", none⟩))).1.step =
      sampleAuthState.step ∧
    (handleInitiateOAuth sampleAuthState
        (.resp (.fail ⟨"OAUTH_DENIED", "denied", none⟩))).1.errorEnvelope =
      some ⟨"OAUTH_DENIED", "denied", none⟩ :=
  ⟨rfl,
   (wizard_failure_attaches_envelope_and_keeps_step sampleAuthState
      sampleConnector ⟨"OAUTH_DENIED", "denied", none⟩ "x" rfl).1.1,
   (wizard_failure_attaches_envelope_and_keeps_step sampleAuthState
      sampleConnector ⟨"OAUTH_DENIED", "denied", none⟩ "x" rfl).1.2⟩

/-- C6 (counterexample): selecting a different connector does NOT reset
the auth-method selection or the entered credential fields — the
`onSelect` handler only sets the connector id and clears the error
envelope.  Starting from a session with auth method `api_key` and a
non-empty key, switching the connector from `"jira"` to `"confluence"`
keeps both. -/
theorem selectConnector_reset_counterexample :
    (selectConnectorAction sampleAuthState "confluence").authMethod =
      some AuthMethod.apiKey ∧
    (selectConnectorAction sampleAuthState "confluence").apiKey =
      "secret-key" ∧
    (selectConnectorAction sampleAuthState "confluence").selectedConnectorId =
      "confluence" ∧
    sampleAuthState.selectedConnectorId ≠ "confluence" :=
  ⟨rfl, rfl, rfl, by decide⟩

/-- C6 (amended): selecting a connector (also a different one) clears
any attached error envelope but leaves the auth-method selection and
the previously entered credential fields unchanged; applying the
selection action twice with the same id has the same effect as applying
it once. -/
theorem selectConnectorAction_spec (s : WizardState) (id : String) :
    (selectConnectorAction s id).authMethod = s.authMethod ∧
    (selectConnectorAction s id).apiKey = s.apiKey ∧
    (selectConnectorAction s id).apiBaseUrl = s.apiBaseUrl ∧
    (selectConnectorAction s id).step = s.step ∧
    (selectConnectorAction s id).errorEnvelope = none ∧
    selectConnectorAction (selectConnectorAction s id) id =
      selectConnectorAction s id :=
  ⟨rfl, rfl, rfl, rfl, rfl, rfl⟩

/-- C7: in every wizard session with a selected connector, a successful
`validateConnection` response makes `handleValidate` set the step to
`done` and produce exactly the effect list "issue the validate request,
then schedule one navigation to `/` (the dashboard root, per the wizard
README) after the fixed 800 ms delay" — in particular exactly one
scheduled navigation, never zero or two. -/
theorem handleValidate_success_done_single_nav
    (s : WizardState) (c : Connector) (d : Json)
    (hc : selectedConnector s = some c) :
    (handleValidate s (.resp (.ok d))).1.step = .done ∧
    (handleValidate s (.resp (.ok d))).2 =
      [.request (.validateConnection c.id), .scheduleNav "/" 800] ∧
    ((handleValidate s (.resp (.ok d))).2.filter Effect.isScheduleNav) =
      [.scheduleNav "/" 800] := by
  refine ⟨?_, ?_, ?_⟩ <;>
    simp [handleValidate, hc, Effect.isScheduleNav, List.filter]

/-- C7 (witness): a concrete successful validation sets `done` and
schedules exactly one navigation. -/
theorem handleValidate_success_witness :
    selectedConnector sampleValidateState = some sampleConnector ∧
    (handleValidate sampleValidateState (.resp (.ok Json.null))).1.step =
      Step.done ∧
    ((handleValidate sampleValidateState
        (.resp (.ok Json.null))).2.filter Effect.isScheduleNav) =
      [Effect.scheduleNav "/" 800] :=
  ⟨rfl,
   (handleValidate_success_done_single_nav sampleValidateState
      sampleConnector Json.null rfl).1,
   (handleValidate_success_done_single_nav sampleValidateState
      sampleConnector Json.null rfl).2.2⟩

/-- C8: submitting the API-key form with an empty `apiKey` issues no
network call (the effect list is empty), leaves the whole session —
in particular the step — unchanged except for attaching a failure
envelope whose code is `MISSING_API_KEY`. -/
theorem handleCreateApiKey_emptyKey_blocks
    (s : WizardState) (c : Connector) (outcome : CallOutcome)
    (hc : selectedConnector s = some c) (hk : s.apiKey = "") :
    handleCreateApiKeyConnection s outcome =
      ({ s with errorEnvelope := some (ErrorInfo.mk "MISSING_API_KEY" "Please enter an API key." none) }, []) ∧
    (handleCreateApiKeyConnection s outcome).1.step = s.step ∧
    (handleCreateApiKeyConnection s outcome).2 = [] := by
  refine ⟨?_, ?_, ?_⟩ <;> simp [handleCreateApiKeyConnection, hc, hk]

/-- C8 (witness): a concrete session with an empty key gets the
`MISSING_API_KEY` envelope, an unchanged step and no effects. -/
theorem handleCreateApiKey_emptyKey_witness :
    selectedConnector sampleEmptyKeyState = some sampleConnector ∧
    sampleEmptyKeyState.apiKey = "" ∧
    (handleCreateApiKeyConnection sampleEmptyKeyState
        (.resp (.ok Json.null))).1.step = sampleEmptyKeyState.step ∧
    (handleCreateApiKeyConnection sampleEmptyKeyState
        (.resp (.ok Json.null))).2 = [] :=
  ⟨rfl, rfl,
   (handleCreateApiKey_emptyKey_blocks sampleEmptyKeyState sampleConnector
      (.resp (.ok Json.null)) rfl rfl).2.1,
   (handleCreateApiKey_emptyKey_blocks sampleEmptyKeyState sampleConnector
      (.resp (.ok Json.null)) rfl rfl).2.2⟩

/-- C9: whenever the detail page's active tab is `item` and the URL
query has no `itemId`, the item section renders the "select an item"
placeholder with neither a loading nor an error state, and issues no
item-detail or comments request — for any backend oracle. -/
theorem itemTab_without_itemId
    (connId : String) (params : List (String × String))
    (oracle : DetailRequest → SWRResult)
    (htab : activeTabParam params = "item")
    (hitem : getParam params "itemId" = none) :
    connectionDetailItemSection connId params oracle =
      (some ⟨true, false, false, false⟩, []) := by
  simp [connectionDetailItemSection, renderItemDetail, useSWR, htab, hitem]

/-- C9 (witness): the concrete query string `?tab=item` (no `itemId`)
renders only the placeholder and issues no requests. -/
theorem itemTab_without_itemId_witness :
    activeTabParam [("tab", "item")] = "item" ∧
    getParam [("tab", "item")] "itemId" = none ∧
    connectionDetailItemSection "c1" [("tab", "item")]
        (fun _ => ⟨none, none, false⟩) =
      (some ⟨true, false, false, false⟩, []) :=
  ⟨rfl, rfl,
   itemTab_without_itemId "c1" [("tab", "item")]
     (fun _ => ⟨none, none, false⟩) rfl rfl⟩

/-- C10: when `initiateOAuth` succeeds but its `data` carries no
`authUrl` (it is not an object with that key), no redirect effect is
produced, the step remains `auth`, and the exact
`MISSING_AUTH_URL` / "Authorization URL not provided by backend."
envelope is attached to the session. -/
theorem handleInitiateOAuth_missingAuthUrl
    (s : WizardState) (c : Connector) (d : Json)
    (hc : selectedConnector s = some c) (hstep : s.step = .auth)
    (hurl : extractAuthUrl d = none) :
    (handleInitiateOAuth s (.resp (.ok d))).1.step = .auth ∧
    (handleInitiateOAuth s (.resp (.ok d))).1.errorEnvelope =
      some ⟨"MISSING_AUTH_URL", "Authorization URL not provided by backend.",
            none⟩ ∧
    ((handleInitiateOAuth s (.resp (.ok d))).2.filter Effect.isRedirect) =
      [] := by
  refine ⟨?_, ?_, ?_⟩ <;>
    simp [handleInitiateOAuth, hc, hurl, hstep, Effect.isRedirect, List.filter]

/-- C10 (witness): a concrete success envelope whose data is an object
without `authUrl` triggers the `MISSING_AUTH_URL` branch. -/
theorem handleInitiateOAuth_missingAuthUrl_witness :
    selectedConnector sampleAuthState = some sampleConnector ∧
    sampleAuthState.step = Step.auth ∧
    extractAuthUrl (Json.obj [("foo", Json.str "bar")]) = none ∧
    (handleInitiateOAuth sampleAuthState
        (.resp (.ok (Json.obj [("foo", Json.str "bar")])))).1.errorEnvelope =
      some ⟨"MISSING_AUTH_URL", "Authorization URL not provided by backend.",
            none⟩ :=
  ⟨rfl, rfl, rfl,
   (handleInitiateOAuth_missingAuthUrl sampleAuthState sampleConnector
      (Json.obj [("foo", Json.str "bar")]) rfl rfl rfl).2.1⟩

end UCF
